import Mathlib

/-!
Shallow embedding of the ParcelApp polling coordinator
(`custom_components/parcelapp/coordinator.py`), its durable cache
(`custom_components/parcelapp/cache.py`) and the constants of
`custom_components/parcelapp/const.py`.

Modelling conventions:
* timestamps are integers counting seconds; Python's
  `timedelta(hours=1)` is `3600`, `timedelta.days` is floor division
  by `86400` (`Int.fdiv`);
* a Python value that may be absent (`dict.get`) is an `Option`;
* the `date_expected` field of a raw delivery is abstracted by the
  outcome of `datetime.strptime(date_str, "%Y-%m-%d %H:%M:%S")`:
  `missing` for `None`/`""` (falsy in `if not date_str`), `unparseable`
  when `strptime` raises `ValueError`/`TypeError` (which the source
  catches), `valid t` when it parses to timestamp `t`;
* an API reply (`api.get_deliveries`) is `ok deliveries` when
  `result.get("success")` is truthy and `err msg` otherwise, `msg`
  being `result.get("error_message", "Unknown error")`;
* `raise UpdateFailed(...)` is an `Except.error` carrying the message
  and the optional `retry_after` keyword;
* one tick of `_async_update_data` is the pure function `tick`; the
  cache contents read by `load_deliveries` are a tick input (reads do
  not mutate the store), while `cacheSaves` records every
  `save_deliveries` call the tick body performs.
-/

namespace ParcelApp

/-- `DEFAULT_REMOVAL_AGE_DAYS` from `const.py`. -/
def DEFAULT_REMOVAL_AGE_DAYS : Int := 3

/-- Outcome of parsing the `date_expected` field of a raw delivery. -/
inductive DateField where
  | missing : DateField
  | unparseable : DateField
  | valid : Int → DateField
deriving Repr, DecidableEq

/-- One raw delivery dict as returned inside a successful API reply. -/
structure RawDelivery where
  tracking_number : Option String
  carrier_code : Option String
  description : Option String
  status_code : Option Int
  date_expected : DateField
  date_expected_end : DateField
  events : List String
  extra_information : Option String
  timestamp_expected : Option Int
  timestamp_expected_end : Option Int
deriving Repr, DecidableEq

/-- The fixed status table `DELIVERY_STATUS_CODES` of `coordinator.py`:
`some name` for the nine known codes, `none` otherwise. -/
def DELIVERY_STATUS_CODES (code : Int) : Option String :=
  match code with
  | 0 => some "completed"
  | 1 => some "frozen"
  | 2 => some "in_transit"
  | 3 => some "awaiting_pickup"
  | 4 => some "out_for_delivery"
  | 5 => some "not_found"
  | 6 => some "failed_attempt"
  | 7 => some "exception"
  | 8 => some "carrier_info_received"
  | _ => none

/-- `DELIVERY_STATUS_CODES.get(delivery.get("status_code"), "unknown")`. -/
def statusNameOf (code : Option Int) : String :=
  ((code.bind DELIVERY_STATUS_CODES).getD "unknown")

/-- `ParcelAppCoordinator._should_remove_delivery`: completed (`status_code`
equal to `0`), `date_expected` present and parseable, and
`(now - delivery_date).days >= DEFAULT_REMOVAL_AGE_DAYS`.  Python's
`timedelta.days` floors, hence `Int.fdiv`.  A missing or falsy date and a
parse failure (the caught `ValueError`/`TypeError`) both yield `false`. -/
def should_remove_delivery (now : Int) (status_code : Option Int)
    (date_expected : DateField) : Bool :=
  if status_code ≠ some 0 then false
  else
    match date_expected with
    | DateField.missing => false
    | DateField.unparseable => false
    | DateField.valid t => decide (DEFAULT_REMOVAL_AGE_DAYS ≤ Int.fdiv (now - t) 86400)

/-- One processed delivery dict as built in the loop of
`_async_update_data` (lines 152-187 of `coordinator.py`). -/
structure ProcessedDelivery where
  tracking_number : Option String
  carrier_code : Option String
  description : Option String
  status_code : Option Int
  status_name : String
  date_expected : DateField
  date_expected_end : DateField
  events : List String
  extra_information : Option String
  timestamp_expected : Option Int
  timestamp_expected_end : Option Int
  should_remove : Bool
deriving Repr, DecidableEq

/-- The body of the processing loop: copy the fields, look the status name
up in the fixed table, and compute `should_remove`. -/
def process_delivery (now : Int) (d : RawDelivery) : ProcessedDelivery :=
  { tracking_number := d.tracking_number
    carrier_code := d.carrier_code
    description := d.description
    status_code := d.status_code
    status_name := statusNameOf d.status_code
    date_expected := d.date_expected
    date_expected_end := d.date_expected_end
    events := d.events
    extra_information := d.extra_information
    timestamp_expected := d.timestamp_expected
    timestamp_expected_end := d.timestamp_expected_end
    should_remove := should_remove_delivery now d.status_code d.date_expected }

/-- The whole processing loop over `result.get("deliveries", [])`: every
item is processed and appended, in input order. -/
def process_deliveries (now : Int) (ds : List RawDelivery) : List ProcessedDelivery :=
  ds.map (process_delivery now)

/-- `matchesAt needle hay`: `hay` starts with `needle` (character list
prefix test, used for Python's substring operator `in`). -/
def matchesAt : List Char → List Char → Bool
  | [], _ => true
  | _ :: _, [] => false
  | a :: as, b :: bs => a == b && matchesAt as bs

/-- `containsSub needle hay`: `needle` occurs contiguously in `hay`,
Python's `needle in hay` on strings. -/
def containsSub (needle : List Char) : List Char → Bool
  | [] => matchesAt needle []
  | c :: cs => matchesAt needle (c :: cs) || containsSub needle cs

/-- The rate-limit test of `coordinator.py` lines 91 and 125:
`"rate limit" in error_msg.lower() or "429" in error_msg`. -/
def isRateLimitMsg (msg : String) : Bool :=
  containsSub "rate limit".data (msg.data.map Char.toLower) ||
    containsSub "429".data msg.data

/-- One reply of `api.get_deliveries`: `ok` when `result.get("success")`
is truthy (carrying `result.get("deliveries", [])`), `err` otherwise
(carrying `result.get("error_message", "Unknown error")`). -/
inductive ApiResult where
  | ok : List RawDelivery → ApiResult
  | err : String → ApiResult
deriving Repr, DecidableEq

/-- The mutable coordinator fields set in `ParcelAppCoordinator.__init__`:
`_rate_limited`, `_rate_limit_until`, `_probe_in_progress`,
`_skip_first_request`. -/
structure CoordState where
  rate_limited : Bool
  rate_limit_until : Option Int
  probe_in_progress : Bool
  skip_first_request : Bool
deriving Repr, DecidableEq

/-- `raise UpdateFailed(msg)`, with the optional `retry_after` keyword
(`coordinator.py` line 138 is the only raise that passes one). -/
structure UpdateFailedErr where
  msg : String
  retryAfter : Option Nat
deriving Repr, DecidableEq

/-- The dict a tick returns: `deliveries`, and the optional `cached` and
`rate_limited` keys (absent keys modelled as `false`). -/
structure Snapshot where
  deliveries : List ProcessedDelivery
  cached : Bool
  rate_limited : Bool
deriving Repr, DecidableEq

/-- Everything one call of `_async_update_data` produces: the coordinator
state on exit, the returned dict or the raised `UpdateFailed`, how many
`api.get_deliveries` calls the body made, and the argument of every
`cache.save_deliveries` call it made. -/
structure TickOut where
  state : CoordState
  result : Except UpdateFailedErr Snapshot
  apiCalls : Nat
  cacheSaves : List (List ProcessedDelivery)
deriving Repr

/-- Lines 111-189 of `_async_update_data`: the skip-first-request check
followed by the normal fetch.  `calls` counts the API calls already made
earlier in the same tick (a successful probe falls through to here).
Note the source clears `_skip_first_request` only when the cache read
came back empty. -/
def normalFetch (s : CoordState) (now : Int) (cache : List ProcessedDelivery)
    (api : ApiResult) (calls : Nat) : TickOut :=
  if s.skip_first_request && !cache.isEmpty then
    { state := s
      result := Except.ok { deliveries := cache, cached := true, rate_limited := false }
      apiCalls := calls
      cacheSaves := [] }
  else
    let s := if s.skip_first_request then { s with skip_first_request := false } else s
    match api with
    | ApiResult.err msg =>
      if isRateLimitMsg msg then
        let s := { s with rate_limited := true, rate_limit_until := some (now + 3600) }
        if !cache.isEmpty then
          { state := s
            result := Except.ok { deliveries := cache, cached := true, rate_limited := true }
            apiCalls := calls + 1
            cacheSaves := [] }
        else
          { state := s
            result := Except.error { msg := msg, retryAfter := some 3600 }
            apiCalls := calls + 1
            cacheSaves := [] }
      else
        { state := s
          result := Except.error { msg := "API error: " ++ msg, retryAfter := none }
          apiCalls := calls + 1
          cacheSaves := [] }
    | ApiResult.ok ds =>
      let s := if s.rate_limited then
          { s with rate_limited := false, rate_limit_until := none } else s
      { state := s
        result := Except.ok
          { deliveries := process_deliveries now ds, cached := false, rate_limited := false }
        apiCalls := calls + 1
        cacheSaves := [] }

/-- One full call of `ParcelAppCoordinator._async_update_data`.
`now` is the tick's clock reading, `cache` what `load_deliveries`
returns during this tick (reads do not change the store), `api1` the
reply to the first `api.get_deliveries` call of the tick and `api2` the
reply to a second one (only a successful probe causes a second call).
Mirrors lines 56-189: the rate-limit window check, the expiry probe
(the probe's successful payload is discarded and a fresh normal fetch
follows), and `normalFetch`. -/
def tick (s : CoordState) (now : Int) (cache : List ProcessedDelivery)
    (api1 api2 : ApiResult) : TickOut :=
  if s.rate_limited && s.rate_limit_until.isSome then
    let u := s.rate_limit_until.getD 0
    if now < u then
      if !cache.isEmpty then
        { state := s
          result := Except.ok { deliveries := cache, cached := true, rate_limited := true }
          apiCalls := 0
          cacheSaves := [] }
      else
        { state := s
          result := Except.error
            { msg := "API rate limited. Waiting for recovery.", retryAfter := none }
          apiCalls := 0
          cacheSaves := [] }
    else if !s.probe_in_progress then
      match api1 with
      | ApiResult.ok _ =>
        let s := { s with rate_limited := false, rate_limit_until := none,
                          probe_in_progress := false }
        normalFetch s now cache api2 1
      | ApiResult.err msg =>
        if isRateLimitMsg msg then
          let s := { s with rate_limit_until := some (now + 3600),
                            probe_in_progress := false }
          if !cache.isEmpty then
            { state := s
              result := Except.ok
                { deliveries := cache, cached := true, rate_limited := true }
              apiCalls := 1
              cacheSaves := [] }
          else
            { state := s
              result := Except.error
                { msg := "API still rate limited. Waiting for recovery.", retryAfter := none }
              apiCalls := 1
              cacheSaves := [] }
        else
          let s := { s with rate_limited := false, rate_limit_until := none,
                            probe_in_progress := false }
          { state := s
            result := Except.error
              { msg := "API error: " ++ msg, retryAfter := none }
            apiCalls := 1
            cacheSaves := [] }
    else
      normalFetch s now cache api1 0
  else
    normalFetch s now cache api1 0

/-- The inputs one tick consumes: clock reading, cache contents as read,
and the replies to the at most two API calls of the tick. -/
structure TickInput where
  now : Int
  cache : List ProcessedDelivery
  api1 : ApiResult
  api2 : ApiResult
deriving Repr, DecidableEq

/-- Serialized ticks: each tick starts from the state the previous one
left behind (§5 of the spec: ticks are strictly serialized). -/
def runTicks (s : CoordState) : List TickInput → List TickOut
  | [] => []
  | i :: is =>
    let r := tick s i.now i.cache i.api1 i.api2
    r :: runTicks r.state is

/-- The `deliveries` table of `cache.py`: one row per `id` (the `TEXT
PRIMARY KEY`), holding the saved delivery payload (`json.dumps` and the
`updated_at` column are abstracted away: serialization of the plain
dicts the coordinator builds does not fail, and no logic reads the
timestamp). -/
abbrev CacheTable : Type := List (String × ProcessedDelivery)

/-- `REPLACE INTO deliveries (id, data) VALUES (?, ?)`: overwrite the
row with this primary key, or insert a new one. -/
def cacheReplace (c : CacheTable) (id : String) (d : ProcessedDelivery) : CacheTable :=
  if (c.map Prod.fst).contains id then
    c.map (fun r => if r.1 = id then (id, d) else r)
  else c ++ [(id, d)]

/-- `ParcelAppCache.save_deliveries`: an empty list returns at once;
otherwise each delivery is written under its `tracking_number`, and an
entry whose `tracking_number` is falsy (`None` or `""`) is skipped. -/
def save_deliveries (c : CacheTable) (ds : List ProcessedDelivery) : CacheTable :=
  if ds.isEmpty then c
  else
    ds.foldl
      (fun acc d =>
        match d.tracking_number with
        | none => acc
        | some id => if id = "" then acc else cacheReplace acc id d)
      c

/-- `ParcelAppCache.load_deliveries`: `SELECT data FROM deliveries` —
a pure read of the payload column, the table itself unchanged. -/
def load_deliveries (c : CacheTable) : List ProcessedDelivery :=
  c.map Prod.snd

/-- The coordinator state right after `ParcelAppCoordinator.__init__`:
Normal, no window, no probe, shortcut flag clear. -/
def initState : CoordState :=
  { rate_limited := false, rate_limit_until := none, probe_in_progress := false,
    skip_first_request := false }

/-- `initState` after `async_setup_entry` found a non-empty cache and set
`coordinator._skip_first_request = True`. -/
def skipState : CoordState :=
  { initState with skip_first_request := true }

/-- A Limited state whose one-hour window ends at time `0`. -/
def limitedState : CoordState :=
  { rate_limited := true, rate_limit_until := some 0, probe_in_progress := false,
    skip_first_request := false }

/-- A sample raw delivery with tracking id "PKG1", in transit. -/
def rawPkg : RawDelivery :=
  { tracking_number := some "PKG1", carrier_code := some "ups",
    description := some "Box", status_code := some 2,
    date_expected := DateField.missing, date_expected_end := DateField.missing,
    events := [], extra_information := none, timestamp_expected := none,
    timestamp_expected_end := none }

/-- A sample raw delivery whose tracking id is missing. -/
def rawNoId : RawDelivery :=
  { rawPkg with tracking_number := none }

/-- A sample raw delivery whose date field did not parse. -/
def rawBadDate : RawDelivery :=
  { rawPkg with status_code := some 0, date_expected := DateField.unparseable }

/-- A sample cached (processed) delivery, as the cache would return it. -/
def cachedPkg : ProcessedDelivery :=
  process_delivery 0 rawPkg

/-! ## Helper lemmas -/

/-- Python's `(now - d).days >= 3` is a floor comparison: it holds exactly
when the difference is at least three whole days of seconds. -/
lemma fdiv_day_ge (x : Int) : (3 ≤ Int.fdiv x 86400) ↔ 259200 ≤ x := by
  rw [Int.fdiv_eq_ediv _ (by norm_num)]
  omega

/-- In Normal state the rate-limit prelude of the tick is skipped. -/
lemma tick_normal (s : CoordState) (now : Int) (cache : List ProcessedDelivery)
    (a1 a2 : ApiResult) (hn : s.rate_limited = false) :
    tick s now cache a1 a2 = normalFetch s now cache a1 0 := by
  simp [tick, hn]

/-- With the startup shortcut flag clear, the normal fetch makes exactly
one API call on top of those already made. -/
lemma normalFetch_calls (s : CoordState) (now : Int) (cache : List ProcessedDelivery)
    (api : ApiResult) (calls : Nat) (hskip : s.skip_first_request = false) :
    (normalFetch s now cache api calls).apiCalls = calls + 1 := by
  cases api <;>
    simp only [normalFetch, hskip, Bool.false_and, Bool.false_eq_true, if_false]
  all_goals ((repeat' split) <;> rfl)

/-- A Normal-state tick with the shortcut flag clear calls the API once. -/
lemma tick_normal_calls (s : CoordState) (now : Int) (cache : List ProcessedDelivery)
    (a1 a2 : ApiResult) (hn : s.rate_limited = false)
    (hskip : s.skip_first_request = false) :
    (tick s now cache a1 a2).apiCalls = 1 := by
  rw [tick_normal s now cache a1 a2 hn, normalFetch_calls s now cache a1 0 hskip]

/-- Inside the unexpired window the tick is fully determined: no API
call, serve the cache as read or fail, leave the state unchanged. -/
lemma tick_window (s : CoordState) (u now : Int) (cache : List ProcessedDelivery)
    (a1 a2 : ApiResult) (h1 : s.rate_limited = true) (h2 : s.rate_limit_until = some u)
    (hlt : now < u) :
    tick s now cache a1 a2 =
      { state := s
        result := if cache.isEmpty then
            Except.error { msg := "API rate limited. Waiting for recovery.", retryAfter := none }
          else Except.ok { deliveries := cache, cached := true, rate_limited := true }
        apiCalls := 0
        cacheSaves := [] } := by
  by_cases hc : cache.isEmpty <;> simp [tick, h1, h2, hlt, hc]

/-- Iterating ticks inside an unexpired window: every tick serves its
cache read (or fails on an empty one), never calls the API, and leaves
the state untouched. -/
lemma runTicks_window (s : CoordState) (u : Int) (h1 : s.rate_limited = true)
    (h2 : s.rate_limit_until = some u) :
    ∀ inputs : List TickInput, (∀ i ∈ inputs, i.now < u) →
      runTicks s inputs = inputs.map (fun i =>
        { state := s
          result := if i.cache.isEmpty then
              Except.error { msg := "API rate limited. Waiting for recovery.", retryAfter := none }
            else Except.ok { deliveries := i.cache, cached := true, rate_limited := true }
          apiCalls := 0
          cacheSaves := [] }) := by
  intro inputs
  induction inputs with
  | nil => intro _; rfl
  | cons i is ih =>
    intro hin
    have hi : i.now < u := hin i (List.mem_cons_self i is)
    have ht := tick_window s u i.now i.cache i.api1 i.api2 h1 h2 hi
    have ih' := ih (fun j hj => hin j (List.mem_cons_of_mem _ hj))
    simp only [runTicks, ht, List.map_cons, ih']

/-- Each `normalFetch` makes at most one API call on top of those
already made (the startup shortcut may make none). -/
lemma normalFetch_calls_le (s : CoordState) (now : Int)
    (cache : List ProcessedDelivery) (api : ApiResult) (calls : Nat) :
    (normalFetch s now cache api calls).apiCalls ≤ calls + 1 := by
  cases api <;> simp only [normalFetch]
  all_goals ((repeat' split) <;> first | exact Nat.le_refl _ | exact Nat.le_succ _)

/-- One `REPLACE INTO` under a non-empty key keeps all table keys
non-empty. -/
lemma cacheReplace_keys (c : CacheTable) (id : String) (d : ProcessedDelivery)
    (hc : ∀ k ∈ c.map Prod.fst, k ≠ "") (hid : id ≠ "") :
    ∀ k ∈ (cacheReplace c id d).map Prod.fst, k ≠ "" := by
  intro k hk
  unfold cacheReplace at hk
  split at hk
  · rw [List.map_map, List.mem_map] at hk
    obtain ⟨r, hr, hkeq⟩ := hk
    by_cases hrid : r.1 = id
    · simp only [Function.comp, hrid, if_true, ite_true] at hkeq
      exact hkeq ▸ hid
    · simp only [Function.comp, hrid, if_false, ite_false] at hkeq
      exact hkeq ▸ hc r.1 (List.mem_map.mpr ⟨r, hr, rfl⟩)
  · rw [List.map_append, List.mem_append] at hk
    rcases hk with hk | hk
    · exact hc k hk
    · simp only [List.map_cons, List.map_nil, List.mem_singleton] at hk
      exact hk ▸ hid

/-- The write loop of `save_deliveries` keeps all table keys
non-empty: falsy ids are skipped, the others pass through
`cacheReplace` with a non-empty key. -/
lemma saveFold_keys :
    ∀ (ds : List ProcessedDelivery) (c : CacheTable),
      (∀ k ∈ c.map Prod.fst, k ≠ "") →
      ∀ k ∈ (ds.foldl
          (fun acc d =>
            match d.tracking_number with
            | none => acc
            | some id => if id = "" then acc else cacheReplace acc id d)
          c).map Prod.fst,
        k ≠ ""
  | [], _, hc => hc
  | d :: ds, c, hc => by
    simp only [List.foldl_cons]
    apply saveFold_keys ds
    rcases hd : d.tracking_number with _ | id
    · simpa [hd] using hc
    · by_cases hid : id = ""
      · simpa [hd, hid] using hc
      · simpa [hd, hid] using cacheReplace_keys c id d hc hid

/-! ## Claims -/

/-- C1: the coordinator is claimed to write every successful fresh fetch
through to the durable cache.  In the source no call site of
`ParcelAppCache.save_deliveries` exists outside the tests, so a tick
performs no cache write on any path; cache reads are pure
(`load_deliveries` only selects).  This theorem evaluates the embedded
tick: its list of `save_deliveries` calls is empty for every state and
input, successful fresh fetches included. -/
theorem C1_no_cache_write (s : CoordState) (now : Int)
    (cache : List ProcessedDelivery) (a1 a2 : ApiResult) :
    (tick s now cache a1 a2).cacheSaves = [] := by
  have hnf : ∀ (s' : CoordState) (api : ApiResult) (calls : Nat),
      (normalFetch s' now cache api calls).cacheSaves = [] := by
    intro s' api calls
    cases api <;> simp only [normalFetch] <;> (repeat' split) <;> rfl
  cases a1 <;> simp only [tick] <;> (repeat' split) <;> first | rfl | apply hnf

/-- C9: a delivery whose `date_expected` failed to parse is never marked
for removal — the `ValueError`/`TypeError` is caught inside
`_should_remove_delivery`, which returns `False`; in the embedding the
function is total, so no exception escapes the reconciliation. -/
theorem C9_unparseable_date_fail_open (now : Int) (d : RawDelivery)
    (h : d.date_expected = DateField.unparseable) :
    (process_delivery now d).should_remove = false := by
  simp [process_delivery, should_remove_delivery, h]

/-- Witness for C9 at a concrete unparseable-date delivery. -/
theorem C9_unparseable_date_fail_open_witness :
    rawBadDate.date_expected = DateField.unparseable ∧
    (process_delivery 0 rawBadDate).should_remove = false :=
  ⟨rfl, C9_unparseable_date_fail_open 0 rawBadDate rfl⟩

/-- C5: `should_remove` is true exactly for completed deliveries whose
parsed expected date lies at least three whole days (259200 seconds,
`DEFAULT_REMOVAL_AGE_DAYS * 86400`) in the past, and the boundary falls
as claimed: exactly three days before now removes, exactly two does
not. -/
theorem C5_should_remove_boundary (now : Int) (d : RawDelivery) :
    ((process_delivery now d).should_remove = true ↔
      (d.status_code = some 0 ∧
        ∃ t : Int, d.date_expected = DateField.valid t ∧ 3 * 86400 ≤ now - t)) ∧
    should_remove_delivery now (some 0) (DateField.valid (now - 3 * 86400)) = true ∧
    should_remove_delivery now (some 0) (DateField.valid (now - 2 * 86400)) = false := by
  refine ⟨?_, ?_, ?_⟩
  · show should_remove_delivery now d.status_code d.date_expected = true ↔ _
    unfold should_remove_delivery
    by_cases hsc : d.status_code = some 0
    · rcases hde : d.date_expected with _ | _ | t <;>
        simp [hde, hsc, DEFAULT_REMOVAL_AGE_DAYS, fdiv_day_ge]
    · simp [hsc]
  · simp [should_remove_delivery, DEFAULT_REMOVAL_AGE_DAYS, fdiv_day_ge]
  · simp [should_remove_delivery, DEFAULT_REMOVAL_AGE_DAYS, fdiv_day_ge]

/-- C2: the source clears `_skip_first_request` only when the cache read
comes back empty (`coordinator.py` line 117 is inside the
`if not cached` fall-through), so with the flag set and a non-empty
cache the startup shortcut fires on every tick, not only the first: the
second tick also makes no API call and serves the cache again, instead
of performing the deferred live call.  Concrete two-tick run exhibiting
the divergence; the first tick's published snapshot does match the
claimed `servedFromCache=true`, `rateLimited=false`. -/
theorem C2_skip_flag_never_cleared :
    (tick skipState 0 [cachedPkg] (ApiResult.ok []) (ApiResult.ok [])).result =
      Except.ok { deliveries := [cachedPkg], cached := true, rate_limited := false } ∧
    (tick skipState 0 [cachedPkg] (ApiResult.ok []) (ApiResult.ok [])).apiCalls = 0 ∧
    (tick skipState 0 [cachedPkg] (ApiResult.ok []) (ApiResult.ok [])).state.skip_first_request
      = true ∧
    (tick (tick skipState 0 [cachedPkg] (ApiResult.ok []) (ApiResult.ok [])).state
      360 [cachedPkg] (ApiResult.ok [rawPkg]) (ApiResult.ok [])).apiCalls = 0 :=
  ⟨rfl, rfl, rfl, rfl⟩

/-- C3 counterexample: a probe tick whose probe returns Ok issues a
second fetch within the same tick — the embedded tick makes two API
calls where the claim allows at most one. -/
theorem C3_probe_ok_second_fetch :
    (tick limitedState 5 [] (ApiResult.ok []) (ApiResult.ok [rawPkg])).apiCalls = 2 :=
  rfl

/-- C3 amended: every tick makes at most two Remote Client calls —
exactly one in Normal state with the shortcut flag clear, exactly one in
an expired-window probe tick whose probe fails, and exactly two in an
expired-window probe tick whose probe returns Ok (the probe payload is
discarded and a second, normal fetch runs in the same tick). -/
theorem C3_calls_per_tick (s : CoordState) (now u : Int)
    (cache : List ProcessedDelivery) (a1 a2 : ApiResult) :
    (tick s now cache a1 a2).apiCalls ≤ 2 ∧
    (s.rate_limited = false → s.skip_first_request = false →
      (tick s now cache a1 a2).apiCalls = 1) ∧
    (s.rate_limited = true → s.rate_limit_until = some u → u ≤ now →
      s.probe_in_progress = false →
      (∀ msg, a1 = ApiResult.err msg → (tick s now cache a1 a2).apiCalls = 1) ∧
      (s.skip_first_request = false → ∀ ds, a1 = ApiResult.ok ds →
        (tick s now cache a1 a2).apiCalls = 2)) := by
  refine ⟨?_, ?_, ?_⟩
  · cases a1 <;> simp only [tick]
    all_goals
      ((repeat' split) <;>
        first
          | exact Nat.zero_le 2
          | exact Nat.le_succ 1
          | exact Nat.le_trans (normalFetch_calls_le _ _ _ _ _) (Nat.le_succ 1)
          | exact Nat.le_trans (normalFetch_calls_le _ _ _ _ _) (Nat.le_refl 2))
  · intro hn hskip
    exact tick_normal_calls s now cache a1 a2 hn hskip
  · intro h1 h2 hexp hp
    have hnlt : ¬ now < u := not_lt.mpr hexp
    constructor
    · intro msg ha1
      subst ha1
      simp only [tick, h1, h2, hp, Option.isSome_some, Bool.and_true, hnlt, if_false,
        Bool.not_false, if_true, ite_true, ite_false, Option.getD_some]
      (repeat' split) <;> rfl
    · intro hskip ds ha1
      subst ha1
      simp only [tick, h1, h2, hp, Option.isSome_some, Bool.and_true, hnlt, if_false,
        Bool.not_false, if_true, ite_true, ite_false, Option.getD_some]
      exact normalFetch_calls _ now cache a2 1 hskip

/-- Witness for C3 at a concrete expired-window probe state. -/
theorem C3_calls_per_tick_witness :
    (tick limitedState 5 [] (ApiResult.ok [rawPkg]) (ApiResult.ok [])).apiCalls ≤ 2 ∧
    (limitedState.rate_limited = false → limitedState.skip_first_request = false →
      (tick limitedState 5 [] (ApiResult.ok [rawPkg]) (ApiResult.ok [])).apiCalls = 1) ∧
    (limitedState.rate_limited = true → limitedState.rate_limit_until = some 0 →
      (0 : Int) ≤ 5 → limitedState.probe_in_progress = false →
      (∀ msg, ApiResult.ok [rawPkg] = ApiResult.err msg →
        (tick limitedState 5 [] (ApiResult.ok [rawPkg]) (ApiResult.ok [])).apiCalls = 1) ∧
      (limitedState.skip_first_request = false → ∀ ds,
        ApiResult.ok [rawPkg] = ApiResult.ok ds →
        (tick limitedState 5 [] (ApiResult.ok [rawPkg]) (ApiResult.ok [])).apiCalls = 2)) :=
  C3_calls_per_tick limitedState 5 0 [] (ApiResult.ok [rawPkg]) (ApiResult.ok [])

/-- C4: a Normal-state tick (shortcut flag clear) that receives a
rate-limited reply sets `_rate_limited` and `_rate_limit_until` to
exactly `now + 3600`, and every later tick whose clock is still inside
that window makes no API call at all, publishing its cache read as
`cached`/`rate_limited` when non-empty and failing the tick
otherwise. -/
theorem C4_limited_window_blocks_calls (s : CoordState) (now : Int)
    (cache : List ProcessedDelivery) (msg : String) (a2 : ApiResult)
    (inputs : List TickInput)
    (hn : s.rate_limited = false) (hskip : s.skip_first_request = false)
    (hrl : isRateLimitMsg msg = true)
    (hin : ∀ i ∈ inputs, i.now < now + 3600) :
    (tick s now cache (ApiResult.err msg) a2).state.rate_limited = true ∧
    (tick s now cache (ApiResult.err msg) a2).state.rate_limit_until = some (now + 3600) ∧
    runTicks (tick s now cache (ApiResult.err msg) a2).state inputs =
      inputs.map (fun i =>
        { state := (tick s now cache (ApiResult.err msg) a2).state
          result := if i.cache.isEmpty then
              Except.error { msg := "API rate limited. Waiting for recovery.", retryAfter := none }
            else Except.ok { deliveries := i.cache, cached := true, rate_limited := true }
          apiCalls := 0
          cacheSaves := [] }) := by
  have hstate : (tick s now cache (ApiResult.err msg) a2).state =
      { rate_limited := true, rate_limit_until := some (now + 3600),
        probe_in_progress := s.probe_in_progress, skip_first_request := false } := by
    rw [tick_normal s now cache (ApiResult.err msg) a2 hn]
    by_cases hc : cache.isEmpty <;> simp [normalFetch, hskip, hrl, hc]
  refine ⟨by rw [hstate], by rw [hstate], ?_⟩
  exact runTicks_window _ (now + 3600) (by rw [hstate]) (by rw [hstate]) inputs hin

/-- Witness for C4: a concrete rate-limited tick followed by two
in-window ticks, one with a cached record and one with an empty cache. -/
theorem C4_limited_window_blocks_calls_witness :
    (tick initState 0 [] (ApiResult.err "rate limit") (ApiResult.ok [])).state.rate_limited
      = true ∧
    (tick initState 0 [] (ApiResult.err "rate limit") (ApiResult.ok [])).state.rate_limit_until
      = some ((0 : Int) + 3600) ∧
    runTicks (tick initState 0 [] (ApiResult.err "rate limit") (ApiResult.ok [])).state
        [⟨60, [cachedPkg], ApiResult.ok [], ApiResult.ok []⟩,
         ⟨120, [], ApiResult.ok [], ApiResult.ok []⟩] =
      ([⟨60, [cachedPkg], ApiResult.ok [], ApiResult.ok []⟩,
        ⟨120, [], ApiResult.ok [], ApiResult.ok []⟩] : List TickInput).map (fun i =>
        { state := (tick initState 0 [] (ApiResult.err "rate limit") (ApiResult.ok [])).state
          result := if i.cache.isEmpty then
              Except.error { msg := "API rate limited. Waiting for recovery.", retryAfter := none }
            else Except.ok { deliveries := i.cache, cached := true, rate_limited := true }
          apiCalls := 0
          cacheSaves := [] }) :=
  C4_limited_window_blocks_calls initState 0 [] "rate limit" (ApiResult.ok [])
    [⟨60, [cachedPkg], ApiResult.ok [], ApiResult.ok []⟩,
     ⟨120, [], ApiResult.ok [], ApiResult.ok []⟩]
    rfl rfl (by decide) (by decide)

/-- C6 counterexample: a raw item with a missing tracking id is not
dropped — the published snapshot of a Normal-state tick contains a
record whose tracking id is absent. -/
theorem C6_missing_id_not_dropped :
    (tick initState 0 [] (ApiResult.ok [rawNoId]) (ApiResult.ok [])).result =
      Except.ok { deliveries := [process_delivery 0 rawNoId], cached := false,
                  rate_limited := false } ∧
    (process_delivery 0 rawNoId).tracking_number = none :=
  ⟨rfl, rfl⟩

/-- C6 amended: reconciliation drops nothing — every raw item, id-less
ones included, appears in the published snapshot in input order, one
output per input, with no deduplication or sorting; falsy ids are
skipped only on the cache's save path, which the tick never invokes. -/
theorem C6_all_items_kept_in_order (s : CoordState) (now : Int)
    (cache : List ProcessedDelivery) (ds : List RawDelivery) (a2 : ApiResult)
    (hn : s.rate_limited = false) (hskip : s.skip_first_request = false) :
    (tick s now cache (ApiResult.ok ds) a2).result =
      Except.ok { deliveries := process_deliveries now ds, cached := false,
                  rate_limited := false } ∧
    (process_deliveries now ds).map (fun p => p.tracking_number) =
      ds.map (fun d => d.tracking_number) ∧
    (process_deliveries now ds).length = ds.length := by
  refine ⟨?_, ?_, ?_⟩
  · rw [tick_normal s now cache (ApiResult.ok ds) a2 hn]
    simp [normalFetch, hskip, hn]
  · simp only [process_deliveries, List.map_map]
    exact List.map_congr_left fun a _ => rfl
  · simp [process_deliveries]

/-- Witness for C6 with an id-less item followed by a normal one. -/
theorem C6_all_items_kept_in_order_witness :
    (tick initState 0 [] (ApiResult.ok [rawNoId, rawPkg]) (ApiResult.ok [])).result =
      Except.ok { deliveries := process_deliveries 0 [rawNoId, rawPkg], cached := false,
                  rate_limited := false } ∧
    (process_deliveries 0 [rawNoId, rawPkg]).map (fun p => p.tracking_number) =
      [rawNoId, rawPkg].map (fun d => d.tracking_number) ∧
    (process_deliveries 0 [rawNoId, rawPkg]).length = [rawNoId, rawPkg].length :=
  C6_all_items_kept_in_order initState 0 [] [rawNoId, rawPkg] (ApiResult.ok []) rfl rfl

/-- C7: an expired-window probe failing with a non-rate-limit error
clears `_rate_limited`, `_rate_limit_until` and `_probe_in_progress`,
fails the tick with the transient "API error: ..." failure (no
retry-after) after exactly one API call, and from the resulting state
any next tick performs a normal live call (exactly one fetch). -/
theorem C7_probe_error_resets (s : CoordState) (u now : Int)
    (cache : List ProcessedDelivery) (msg : String) (a2 : ApiResult)
    (h1 : s.rate_limited = true) (h2 : s.rate_limit_until = some u)
    (hexp : u ≤ now) (hp : s.probe_in_progress = false)
    (hskip : s.skip_first_request = false)
    (hmsg : isRateLimitMsg msg = false) :
    (tick s now cache (ApiResult.err msg) a2).state =
      { rate_limited := false, rate_limit_until := none, probe_in_progress := false,
        skip_first_request := false } ∧
    (tick s now cache (ApiResult.err msg) a2).result =
      Except.error { msg := "API error: " ++ msg, retryAfter := none } ∧
    (tick s now cache (ApiResult.err msg) a2).apiCalls = 1 ∧
    ∀ i : TickInput,
      (tick (tick s now cache (ApiResult.err msg) a2).state
        i.now i.cache i.api1 i.api2).apiCalls = 1 := by
  have hnlt : ¬ now < u := not_lt.mpr hexp
  have ht : tick s now cache (ApiResult.err msg) a2 =
      { state := { rate_limited := false, rate_limit_until := none,
                   probe_in_progress := false,
                   skip_first_request := s.skip_first_request }
        result := Except.error { msg := "API error: " ++ msg, retryAfter := none }
        apiCalls := 1
        cacheSaves := [] } := by
    simp [tick, h1, h2, hp, hnlt, hmsg]
  rw [ht]
  refine ⟨by rw [hskip], rfl, rfl, ?_⟩
  intro i
  exact tick_normal_calls _ i.now i.cache i.api1 i.api2 rfl hskip

/-- Witness for C7: concrete probe failure, then one concrete next
tick. -/
theorem C7_probe_error_resets_witness :
    (tick limitedState 5 [] (ApiResult.err "server error") (ApiResult.ok [])).state =
      { rate_limited := false, rate_limit_until := none, probe_in_progress := false,
        skip_first_request := false } ∧
    (tick limitedState 5 [] (ApiResult.err "server error") (ApiResult.ok [])).result =
      Except.error { msg := "API error: " ++ "server error", retryAfter := none } ∧
    (tick limitedState 5 [] (ApiResult.err "server error") (ApiResult.ok [])).apiCalls = 1 ∧
    (tick (tick limitedState 5 [] (ApiResult.err "server error") (ApiResult.ok [])).state
      370 [] (ApiResult.ok [rawPkg]) (ApiResult.ok [])).apiCalls = 1 := by
  have h := C7_probe_error_resets limitedState 0 5 [] "server error" (ApiResult.ok [])
    rfl rfl (by decide) rfl rfl (by decide)
  exact ⟨h.1, h.2.1, h.2.2.1, h.2.2.2 ⟨370, [], ApiResult.ok [rawPkg], ApiResult.ok []⟩⟩

/-- C8 counterexample: an in-window rate-limited tick over an empty
cache fails with no retry-after, refuting the claim that all three
rate-limited failure paths carry the suggested 3600 seconds. -/
theorem C8_window_failure_lacks_retry_after :
    (tick { rate_limited := true, rate_limit_until := some 10, probe_in_progress := false,
            skip_first_request := false } 0 [] (ApiResult.ok []) (ApiResult.ok [])).result =
      Except.error { msg := "API rate limited. Waiting for recovery.", retryAfter := none } :=
  rfl

/-- C8 amended: only the Normal-to-Limited transition with an empty
cache reports `retry_after=3600`; the in-window failure and the
still-limited probe failure raise their `UpdateFailed` without any
retry-after. -/
theorem C8_retry_after_only_on_transition (s : CoordState) (now u : Int)
    (msg : String) (a1 a2 : ApiResult) :
    (s.rate_limited = false → s.skip_first_request = false → isRateLimitMsg msg = true →
      (tick s now [] (ApiResult.err msg) a2).result =
        Except.error { msg := msg, retryAfter := some 3600 }) ∧
    (s.rate_limited = true → s.rate_limit_until = some u → now < u →
      (tick s now [] a1 a2).result =
        Except.error { msg := "API rate limited. Waiting for recovery.", retryAfter := none }) ∧
    (s.rate_limited = true → s.rate_limit_until = some u → u ≤ now →
      s.probe_in_progress = false → isRateLimitMsg msg = true →
      (tick s now [] (ApiResult.err msg) a2).result =
        Except.error { msg := "API still rate limited. Waiting for recovery.",
                       retryAfter := none }) := by
  refine ⟨?_, ?_, ?_⟩
  · intro hn hskip hrl
    rw [tick_normal s now [] (ApiResult.err msg) a2 hn]
    simp [normalFetch, hskip, hrl]
  · intro h1 h2 hlt
    rw [tick_window s u now [] a1 a2 h1 h2 hlt]
    rfl
  · intro h1 h2 hexp hp hrl
    have hnlt : ¬ now < u := not_lt.mpr hexp
    simp [tick, h1, h2, hp, hnlt, hrl]

/-- Witness for C8 at an expired-window probe that is still limited. -/
theorem C8_retry_after_only_on_transition_witness :
    (limitedState.rate_limited = false → limitedState.skip_first_request = false →
      isRateLimitMsg "429" = true →
      (tick limitedState 5 [] (ApiResult.err "429") (ApiResult.ok [])).result =
        Except.error { msg := "429", retryAfter := some 3600 }) ∧
    (limitedState.rate_limited = true → limitedState.rate_limit_until = some 0 →
      (5 : Int) < 0 →
      (tick limitedState 5 [] (ApiResult.ok []) (ApiResult.ok [])).result =
        Except.error { msg := "API rate limited. Waiting for recovery.", retryAfter := none }) ∧
    (limitedState.rate_limited = true → limitedState.rate_limit_until = some 0 →
      (0 : Int) ≤ 5 → limitedState.probe_in_progress = false →
      isRateLimitMsg "429" = true →
      (tick limitedState 5 [] (ApiResult.err "429") (ApiResult.ok [])).result =
        Except.error { msg := "API still rate limited. Waiting for recovery.",
                       retryAfter := none }) :=
  C8_retry_after_only_on_transition limitedState 5 0 "429" (ApiResult.ok []) (ApiResult.ok [])

/-- C10: the cache save keeps every row keyed by a non-empty id — an
empty input list leaves the table untouched, a delivery with a falsy
tracking number (absent or empty string) is skipped without any write,
and a save preserves the invariant that all stored keys are
non-empty. -/
theorem C10_save_preserves_key_invariant (c : CacheTable)
    (ds : List ProcessedDelivery) (d : ProcessedDelivery)
    (hc : ∀ k ∈ c.map Prod.fst, k ≠ "")
    (hbad : d.tracking_number = none ∨ d.tracking_number = some "") :
    save_deliveries c [] = c ∧
    save_deliveries c (d :: ds) = save_deliveries c ds ∧
    ∀ k ∈ (save_deliveries c ds).map Prod.fst, k ≠ "" := by
  have hstep : (match d.tracking_number with
      | none => c
      | some id => if id = "" then c else cacheReplace c id d) = c := by
    rcases hbad with h | h <;> simp [h]
  refine ⟨rfl, ?_, ?_⟩
  · cases ds with
    | nil => simp [save_deliveries, hstep]
    | cons e es => simp [save_deliveries, hstep]
  · by_cases hds : ds.isEmpty
    · simpa [save_deliveries, hds] using hc
    · simp only [save_deliveries, hds, Bool.false_eq_true, if_false, ite_false]
      exact saveFold_keys ds c hc

/-- Witness for C10: a one-row table, one id-less delivery and one
normal delivery. -/
theorem C10_save_preserves_key_invariant_witness :
    save_deliveries [("PKG1", cachedPkg)] [] = [("PKG1", cachedPkg)] ∧
    save_deliveries [("PKG1", cachedPkg)]
        ({ cachedPkg with tracking_number := none } :: [cachedPkg]) =
      save_deliveries [("PKG1", cachedPkg)] [cachedPkg] ∧
    ∀ k ∈ (save_deliveries [("PKG1", cachedPkg)] [cachedPkg]).map Prod.fst, k ≠ "" :=
  C10_save_preserves_key_invariant [("PKG1", cachedPkg)] [cachedPkg]
    { cachedPkg with tracking_number := none } (by decide) (Or.inl rfl)

end ParcelApp
